import Mathlib

/-!
Shallow embedding of `src/main.rs` of `esp-particle-sensor-rs`, an ESP32
firmware that polls an SDS011 particulate-matter sensor, shares the latest
measurement through a `Mutex<Option<Measurement>>`, publishes readings over
MQTT from a single event loop, answers HTTP status requests, and drives a
WS2812 indicator LED.

Effectful code is embedded as functions producing explicit traces of
primitive effects (`Effect`), together with a success flag mirroring Rust's
`Result` propagation via `?`.  Fallible external calls (LED driver writes,
MQTT publishes, Wi-Fi association, sensor measurement) are resolved by
oracle inputs, so every interleaving-dependent or failure-dependent
behaviour is a function of explicit data.  `log::…` calls are not modelled
as observable effects.
-/

/-- One sensor sample, mirroring `sds011::Measurement`.  In the source both
concentration fields are `u16` (fixed-point tenths of µg/m³), so every
value satisfies `pm25 < 2^16` and `pm10 < 2^16`. -/
structure Measurement where
  pm25 : Nat
  pm10 : Nat
deriving DecidableEq, Repr

/-- `RGB8` colour value from `smart_leds`. -/
structure RGB8 where
  r : Nat
  g : Nat
  b : Nat
deriving DecidableEq, Repr

def BLUE : RGB8 := ⟨0, 0, 50⟩
def GREEN : RGB8 := ⟨0, 50, 0⟩
def BLACK : RGB8 := ⟨0, 0, 0⟩
def RED : RGB8 := ⟨100, 0, 0⟩
def ORANGE : RGB8 := ⟨255, 100, 0⟩

/-- MQTT quality-of-service levels (`esp_idf_svc::mqtt::client::QoS`). -/
inductive QoS where
  | atMostOnce
  | atLeastOnce
  | exactlyOnce
deriving DecidableEq, Repr

/-- The event type of the mpsc channel (`enum Message` in `main.rs`):
`Blink` is the heartbeat tick, `NewMeasurement` signals a fresh sample. -/
inductive Message where
  | blink
  | newMeasurement
deriving DecidableEq, Repr

/-- Primitive observable effects of the program.  `lockAcquire` and
`lockRelease` delimit the scope of the `MutexGuard` on the shared
measurement cell; `cellRead`/`cellWrite` record accesses to the slot inside
that scope; `cellInit` records the creation of the cell
(`Arc::new(Mutex::new(None))`); `publish` is an MQTT publish attempt with
its topic, QoS, retain flag and payload; `httpWrite` is the HTTP handler
writing the response body; `restart` is the ESP-IDF device reset. -/
inductive Effect where
  | setLed (c : RGB8)
  | sleepMs (n : Nat)
  | lockAcquire
  | lockRelease
  | cellInit (v : Option Measurement)
  | cellRead (v : Option Measurement)
  | cellWrite (m : Measurement)
  | sendEvent (m : Message)
  | publish (topic : String) (qos : QoS) (retain : Bool) (payload : String)
  | httpWrite (body : String)
  | restart
deriving DecidableEq, Repr

/-- Payload rendering for a concentration field: the source computes
`format!("{}", v as f32 / 10.0)` on a `u16` value `v`.  For every
`v < 2^16`, `v` is exactly representable in `f32`, the quotient `v / 10`
has a one-digit decimal expansion whose distance to any shorter decimal
exceeds the `f32` rounding interval, and Rust's shortest-round-trip
`Display` therefore prints exactly the decimal value `v / 10`: the integer
part, and the digit `v % 10` after a point when it is nonzero. -/
def formatPm (v : Nat) : String :=
  if v % 10 == 0 then toString (v / 10)
  else toString (v / 10) ++ "." ++ toString (v % 10)

/-- The fixed HTML document wrapper (`fn templated` in `main.rs`). -/
def templated (content : String) : String :=
  "\n<!DOCTYPE html>\n<html>\n    <head>\n        <meta charset=\"utf-8\">\n        <title>esp-rs web server</title>\n    </head>\n    <body>\n        "
    ++ content ++
    "\n    </body>\n</html>\n"

/-- Reaction of the event loop to `Message::Blink` (lines 188–195): three
LED writes separated by 50 ms sleeps.  Each `ws2812.write` is fallible
(`?`); `ledOk` gives the outcomes of successive write calls, an exhausted
list meaning success.  Returns the effect trace and `true` iff no `?`
propagated an error. -/
def reactorBlink (ledOk : List Bool) : List Effect × Bool :=
  if ledOk.headD true then
    if (ledOk.drop 1).headD true then
      if (ledOk.drop 2).headD true then
        ([.setLed GREEN, .sleepMs 50, .setLed BLUE, .sleepMs 50,
          .setLed BLACK, .sleepMs 50], true)
      else
        ([.setLed GREEN, .sleepMs 50, .setLed BLUE, .sleepMs 50,
          .setLed BLACK], false)
    else ([.setLed GREEN, .sleepMs 50, .setLed BLUE], false)
  else ([.setLed GREEN], false)

/-- Reaction of the event loop to `Message::NewMeasurement` (lines
196–214): lock the shared cell, read it; if empty do nothing; otherwise
publish PM2.5 then PM10, each retained at QoS `AtLeastOnce`.  The
`MutexGuard` lives to the end of the match arm, so the lock is released
after both publishes — also on the early-return (`?`) error paths, where
the guard is dropped during unwinding.  `pubOk` gives the outcomes of
successive `client.publish` calls, an exhausted list meaning success. -/
def reactorNewMeasurement (root : String) (cell : Option Measurement)
    (pubOk : List Bool) : List Effect × Bool :=
  match cell with
  | none => ([.lockAcquire, .cellRead none, .lockRelease], true)
  | some vals =>
    if pubOk.headD true then
      if (pubOk.drop 1).headD true then
        ([.lockAcquire, .cellRead (some vals),
          .publish (root ++ "/PM25") .atLeastOnce true (formatPm vals.pm25),
          .publish (root ++ "/PM10") .atLeastOnce true (formatPm vals.pm10),
          .lockRelease], true)
      else
        ([.lockAcquire, .cellRead (some vals),
          .publish (root ++ "/PM25") .atLeastOnce true (formatPm vals.pm25),
          .publish (root ++ "/PM10") .atLeastOnce true (formatPm vals.pm10),
          .lockRelease], false)
    else
      ([.lockAcquire, .cellRead (some vals),
        .publish (root ++ "/PM25") .atLeastOnce true (formatPm vals.pm25),
        .lockRelease], false)

/-- One reaction of the event loop (the `match message` at lines
187–215). -/
def reactorStep (root : String) (cell : Option Measurement)
    (pubOk ledOk : List Bool) : Message → List Effect × Bool
  | .blink => reactorBlink ledOk
  | .newMeasurement => reactorNewMeasurement root cell pubOk

/-- One cycle of the sensor poller thread (lines 112–123):
`sds011.measure` either succeeds with a measurement or fails.  On success
the cell is overwritten under the lock (the temporary guard of the
assignment statement) and one `NewMeasurement` event is sent (best-effort);
on failure the cycle only logs.  Either way the thread then sleeps five
minutes.  Returns the new cell contents, the events sent, and the effect
trace. -/
def pollerCycle (cell : Option Measurement)
    (measureResult : Except Unit Measurement) :
    Option Measurement × List Message × List Effect :=
  match measureResult with
  | .ok vals =>
    (some vals, [.newMeasurement],
      [.lockAcquire, .cellWrite vals, .lockRelease,
       .sendEvent .newMeasurement, .sleepMs 300000])
  | .error _ => (cell, [], [.sleepMs 300000])

/-- The HTTP status handler (lines 150–162): lock the cell, render either
the measurement's `Display` form (an external-crate rendering, abstracted
as the `display` argument) or the string shown when no measurement exists,
wrap it in `templated`, and write it as the response body.  The closure's
`MutexGuard` is dropped only after `write_all`, so the release follows the
response write. -/
def statusHandler (cell : Option Measurement)
    (display : Measurement → String) : List Effect × Option Measurement :=
  ([.lockAcquire, .cellRead cell,
    .httpWrite (templated (match cell with
      | some vals => display vals
      | none => "No measure")),
    .lockRelease], cell)

/-- One delivered event as seen by the session loop, with the concurrent
state it observes: the cell contents at the moment the reactor locks it,
and the oracles for the fallible publish and LED calls of this reaction. -/
structure LoopStep where
  msg : Message
  cellView : Option Measurement
  pubOk : List Bool
  ledOk : List Bool
deriving Repr

/-- Fuel-bounded run of the `loop { match rx.recv() … }` event loop (lines
185–218): react to each delivered event in order, stopping when a reaction
propagates an error.  An exhausted step list means the session is still
running (`true`). -/
def sessionLoop (root : String) : List LoopStep → List Effect × Bool
  | [] => ([], true)
  | s :: rest =>
    let r := reactorStep root s.cellView s.pubOk s.ledOk s.msg
    if r.2 then
      let r2 := sessionLoop root rest
      (r.1 ++ r2.1, r2.2)
    else (r.1, false)

/-- Oracle environment for one `do_main` session: outcomes of the four
startup LED writes, of the sensor-driver initialisation, of the Wi-Fi
association (`some macAddr` on success), of the HTTP-server and
MQTT-client construction, and the delivered event sequence. -/
structure Env where
  ledBootOk : Bool
  sensorInitOk : Bool
  ledOrangeOk : Bool
  wifiResult : Option String
  ledErrOk : Bool
  serverOk : Bool
  mqttOk : Bool
  ledReadyOk : Bool
  loopSteps : List LoopStep
deriving Repr

/-- One invocation of `do_main` (lines 72–219) as a trace and a success
flag.  Effect order mirrors the source: boot LED red; sensor init; fresh
shared cell created empty; LED orange; Wi-Fi association — on failure the
LED is set red and the function bails; on success the root topic is
`"esp32/" ++ mac`, the HTTP server and MQTT client are created, the LED is
set green, a one-second pause follows, and the event loop runs.  Every
fallible step that errors ends the trace there with `false`. -/
def doMain (env : Env) : List Effect × Bool :=
  if !env.ledBootOk then ([.setLed RED], false)
  else if !env.sensorInitOk then ([.setLed RED], false)
  else
    let t0 : List Effect := [.setLed RED, .cellInit none]
    if !env.ledOrangeOk then (t0 ++ [.setLed ORANGE], false)
    else
      let t1 := t0 ++ [.setLed ORANGE]
      match env.wifiResult with
      | none => (t1 ++ [.setLed RED], false)
      | some mac =>
        let root := "esp32/" ++ mac
        if !env.serverOk then (t1, false)
        else if !env.mqttOk then (t1, false)
        else if !env.ledReadyOk then (t1 ++ [.setLed GREEN], false)
        else
          let r := sessionLoop root env.loopSteps
          (t1 ++ [.setLed GREEN, .sleepMs 1000] ++ r.1, r.2)

/-- One iteration of the supervising `loop` in `main` (lines 57–64): run
`do_main`; when it returns an error, sleep one second and restart the
device (which reboots the whole process, so the next session re-runs
`do_main` from scratch). -/
def mainIteration (env : Env) : List Effect :=
  let r := doMain env
  if r.2 then r.1 else r.1 ++ [.sleepMs 1000, .restart]

/-- Is this effect a blocking call in the sense of §5 of the spec (network
I/O or sleeping)?  LED writes are short RMT transfers, not blocking
calls. -/
def blockingEffect : Effect → Bool
  | .publish _ _ _ _ => true
  | .httpWrite _ => true
  | .sleepMs _ => true
  | _ => false

/-- Scan a trace tracking whether the cell's lock is held; `true` iff some
blocking effect occurs while the lock is held. -/
def lockHeldAcrossBlocking : List Effect → Bool → Bool
  | [], _ => false
  | e :: rest, held =>
    match e with
    | .lockAcquire => lockHeldAcrossBlocking rest true
    | .lockRelease => lockHeldAcrossBlocking rest false
    | e => (held && blockingEffect e) || lockHeldAcrossBlocking rest held

/-- Count the publish effects of a trace. -/
def publishCount (t : List Effect) : Nat :=
  (t.filter fun e => match e with | .publish _ _ _ _ => true | _ => false).length

/-- The HTTP response bodies written in a trace, in order. -/
def httpBodies (t : List Effect) : List String :=
  t.filterMap fun e => match e with | .httpWrite b => some b | _ => none

/-- C1: processing `NewMeasurement` with a stored measurement publishes
exactly two messages — the PM2.5 field divided by ten as a decimal string
to `<root>/PM25`, then the PM10 field divided by ten to `<root>/PM10` —
both at QoS at-least-once with the retain flag set, all under the cell's
lock, and the reaction succeeds. -/
theorem reactor_newMeasurement_publishes_both (root : String) (m : Measurement) :
    reactorStep root (some m) [] [] .newMeasurement =
      ([.lockAcquire, .cellRead (some m),
        .publish (root ++ "/PM25") .atLeastOnce true (formatPm m.pm25),
        .publish (root ++ "/PM10") .atLeastOnce true (formatPm m.pm10),
        .lockRelease], true) ∧
    publishCount (reactorStep root (some m) [] [] .newMeasurement).1 = 2 := by
  constructor
  · simp [reactorStep, reactorNewMeasurement]
  · simp [reactorStep, reactorNewMeasurement, publishCount]

/-- C2: a `Blink` (tick) event drives exactly the three indicator changes
green, blue, black, each followed by the same 50 ms delay, with no publish,
whatever the shared cell or the publish oracle currently holds. -/
theorem reactor_blink_pattern (root : String) (cell : Option Measurement)
    (pubOk : List Bool) :
    reactorStep root cell pubOk [] .blink =
      ([.setLed GREEN, .sleepMs 50, .setLed BLUE, .sleepMs 50,
        .setLed BLACK, .sleepMs 50], true) ∧
    publishCount (reactorStep root cell pubOk [] .blink).1 = 0 := by
  constructor
  · simp [reactorStep, reactorBlink]
  · simp [reactorStep, reactorBlink, publishCount]

/-- C3: a successful poller cycle first writes the measurement into the
cell under the lock, then sends exactly one `NewMeasurement` event, then
sleeps five minutes; and the reactor processing that event against the
post-cycle cell reads back that same measurement. -/
theorem poller_success_write_then_event (cell : Option Measurement)
    (v : Measurement) (root : String) :
    pollerCycle cell (.ok v) =
      (some v, [.newMeasurement],
        [.lockAcquire, .cellWrite v, .lockRelease,
         .sendEvent .newMeasurement, .sleepMs 300000]) ∧
    ((reactorStep root (some v) [] [] .newMeasurement).1)[1]? =
      some (.cellRead (some v)) := by
  constructor
  · rfl
  · simp [reactorStep, reactorNewMeasurement]

/-- C4: a failed poller cycle leaves the cell unchanged, sends no event,
and only sleeps the fixed five-minute interval before the next cycle. -/
theorem poller_failure_frame (cell : Option Measurement) (e : Unit) :
    pollerCycle cell (.error e) = (cell, [], [.sleepMs 300000]) := by
  rfl

/-- C5: processing `NewMeasurement` when the cell is empty only takes the
lock, observes `none` and releases it: no publish, no indicator change, no
error. -/
theorem reactor_newMeasurement_empty_cell_noop (root : String)
    (pubOk ledOk : List Bool) :
    reactorStep root none pubOk ledOk .newMeasurement =
      ([.lockAcquire, .cellRead none, .lockRelease], true) := by
  rfl

/-- C6: when Wi-Fi association fails after a clean boot, `do_main` sets
the indicator to the error colour (red) and returns an error with nothing
published and no event-loop reaction in the trace, whatever the remaining
oracles would have said. -/
theorem doMain_wifi_failure_aborts (a b c d : Bool) (steps : List LoopStep) :
    doMain ⟨true, true, true, none, a, b, c, d, steps⟩ =
      ([.setLed RED, .cellInit none, .setLed ORANGE, .setLed RED], false) ∧
    publishCount (doMain ⟨true, true, true, none, a, b, c, d, steps⟩).1 = 0 := by
  constructor
  · simp [doMain]
  · simp [doMain, publishCount]

/-- C7: whenever a `do_main` session returns an error, the supervising
loop in `main` appends a one-second sleep and a device restart to the
session's trace — errors are never retried in place — and any session that
gets past boot and sensor initialisation creates its shared measurement
cell empty, so the restarted session starts from a blank cell. -/
theorem main_restarts_on_error (env env2 : Env)
    (h : (doMain env).2 = false)
    (h1 : env2.ledBootOk = true) (h2 : env2.sensorInitOk = true) :
    mainIteration env = (doMain env).1 ++ [.sleepMs 1000, .restart] ∧
    ((doMain env2).1)[1]? = some (.cellInit none) := by
  constructor
  · simp [mainIteration, h]
  · obtain ⟨b1, b2, b3, w, b4, b5, b6, b7, st⟩ := env2
    simp only [Env.ledBootOk] at h1
    simp only [Env.sensorInitOk] at h2
    subst h1; subst h2
    cases b3 <;> cases w <;> cases b5 <;> cases b6 <;> cases b7 <;>
      simp [doMain]

/-- The Wi-Fi-failure environment used to witness `main_restarts_on_error`
at a concrete input. -/
def envWifiFail : Env := ⟨true, true, true, none, true, true, true, true, []⟩

/-- Witness for C7 at the concrete Wi-Fi-failure environment. -/
theorem main_restarts_on_error_witness :
    (doMain envWifiFail).2 = false ∧
    (mainIteration envWifiFail =
        (doMain envWifiFail).1 ++ [.sleepMs 1000, .restart] ∧
      ((doMain envWifiFail).1)[1]? = some (.cellInit none)) :=
  ⟨rfl, main_restarts_on_error envWifiFail envWifiFail rfl rfl rfl⟩

/-- C8: for every state of the cell, the status handler writes exactly one
response body — the fixed HTML template wrapping the measurement's
rendering when the cell holds a value, or the placeholder text when it is
empty — and leaves the cell unchanged. -/
theorem statusHandler_renders_cell (d : Measurement → String)
    (m : Measurement) :
    (httpBodies (statusHandler (some m) d).1 = [templated (d m)] ∧
      (statusHandler (some m) d).2 = some m) ∧
    (httpBodies (statusHandler none d).1 = [templated "No measure"] ∧
      (statusHandler none d).2 = none) := by
  refine ⟨⟨?_, rfl⟩, ⟨?_, rfl⟩⟩ <;> simp [statusHandler, httpBodies]

/-- C9 counterexample: in the trace of a `NewMeasurement` reaction with a
stored measurement, a blocking effect (an MQTT publish) occurs while the
cell's lock is held — the `MutexGuard` taken at the top of the match arm
lives across both publish calls. -/
theorem lock_across_blocking_counterexample :
    lockHeldAcrossBlocking
      (reactorStep "esp32/aa" (some ⟨123, 45⟩) [] [] .newMeasurement).1
      false = true := by
  rfl

/-- C9 amended: the poller holds the lock only for its write and never
across its sleep, and the blink reaction never touches the lock; but the
reactor holds the lock across its publish calls and the status handler
holds it across writing the HTTP response body. -/
theorem lock_discipline_amended (cell : Option Measurement)
    (r : Except Unit Measurement) (root : String) (m : Measurement)
    (d : Measurement → String) (pubOk ledOk : List Bool) :
    lockHeldAcrossBlocking (pollerCycle cell r).2.2 false = false ∧
    lockHeldAcrossBlocking (reactorBlink ledOk).1 false = false ∧
    lockHeldAcrossBlocking
      (reactorStep root (some m) pubOk [] .newMeasurement).1 false = true ∧
    lockHeldAcrossBlocking (statusHandler cell d).1 false = true := by
  refine ⟨?_, ?_, ?_, ?_⟩
  · cases r <;> rfl
  · unfold reactorBlink
    split
    · split
      · split
        · rfl
        · rfl
      · rfl
    · rfl
  · show lockHeldAcrossBlocking (reactorNewMeasurement root (some m) pubOk).1
      false = true
    simp only [reactorNewMeasurement]
    split
    · split
      · rfl
      · rfl
    · rfl
  · rfl

/-- C10: when the first publish (PM2.5) of a `NewMeasurement` reaction
fails, the trace records that one attempt, no PM10 publish is attempted,
the reaction returns an error, and the session loop stops there,
processing none of the remaining events. -/
theorem publish_failure_stops_session (root : String) (m : Measurement)
    (rest : List LoopStep) :
    reactorStep root (some m) [false] [] .newMeasurement =
      ([.lockAcquire, .cellRead (some m),
        .publish (root ++ "/PM25") .atLeastOnce true (formatPm m.pm25),
        .lockRelease], false) ∧
    sessionLoop root (⟨.newMeasurement, some m, [false], []⟩ :: rest) =
      ([.lockAcquire, .cellRead (some m),
        .publish (root ++ "/PM25") .atLeastOnce true (formatPm m.pm25),
        .lockRelease], false) := by
  constructor
  · rfl
  · simp [sessionLoop, reactorStep, reactorNewMeasurement]
